import Mathlib

/-
  Verification development for the AU-Journey web frontend real-time
  location-update reconciliation core.

  The embedding translates, from the JavaScript source:
    - WebSocketGPSService (src/services/WebSocketGPSService.js):
      validators, message parsing, connection management, subscriber
      notification loops;
    - TramMovement (src/components/TramMovement.js): the position
      reconciliation state machine;
    - TramTracker (src/components/TramTracker.js): the location history.

  Numbers: finite float values are modelled as rationals; the results of
  JavaScript numeric coercion (which may be NaN or an infinity) are modelled
  by the JSNum type; timestamps are integers (epoch milliseconds); the scene
  geometry of TramMovement (square roots, arctangents, pi) lives in the real
  numbers.
-/

namespace AUJourney

/-- Result of JavaScript numeric coercion of a message field
(the value when it is already a number, else parseFloat): not a number, an infinity,
or a finite value modelled as a rational. -/
inductive JSNum where
  | nan
  | posInf
  | negInf
  | fin (q : ℚ)
deriving DecidableEq, Repr

namespace JSNum

/-- JavaScript isNaN test. -/
def isNaN : JSNum → Bool
  | .nan => true
  | _ => false

/-- JavaScript comparison x >= c against a finite constant; NaN compares false,
Infinity is above every finite value. -/
def geConst : JSNum → ℚ → Bool
  | .nan, _ => false
  | .posInf, _ => true
  | .negInf, _ => false
  | .fin q, c => decide (c ≤ q)

/-- JavaScript comparison x <= c against a finite constant; NaN compares false. -/
def leConst : JSNum → ℚ → Bool
  | .nan, _ => false
  | .posInf, _ => false
  | .negInf, _ => true
  | .fin q, c => decide (q ≤ c)

/-- Finite value of a coerced number. Only used behind a validity check that
forces the finite case; the other branches return 0 and are unreachable there. -/
def toQ : JSNum → ℚ
  | .fin q => q
  | _ => 0

end JSNum

/-- Raw coordinate object of an inbound transport message (the c or p field),
with lat and lon as the JavaScript numeric coercion of whatever the message
carried, and t the timestamp field. t = none models a missing or falsy
timestamp (the code tests it with the truthiness operators ! and ||). -/
structure RawCoord where
  lat : JSNum
  lon : JSNum
  t : Option Int
deriving DecidableEq, Repr

/-- Parsed GPS point as cached by the service and consumed by TramMovement:
both coordinates are finite numbers. -/
structure GPSPoint where
  lat : ℚ
  lon : ℚ
  timestamp : Option Int
deriving DecidableEq, Repr

namespace WSGPS

/-- Source: WebSocketGPSService.isValidGPSData. Null or missing data is
rejected; then both coordinates are coerced to numbers and checked to be
non-NaN and within latitude and longitude ranges. -/
def isValidGPSData : Option RawCoord → Bool
  | none => false
  | some d =>
      !d.lat.isNaN && !d.lon.isNaN &&
      d.lat.geConst (-90) && d.lat.leConst 90 &&
      d.lon.geConst (-180) && d.lon.leConst 180

/-- Source: WebSocketGPSService.hasGPSChanged, the later of the two method
definitions in the class body (the one JavaScript keeps): tolerance 0.000005
degrees; a missing argument on either side counts as changed. -/
def hasGPSChanged (current previous : Option GPSPoint) : Bool :=
  match current, previous with
  | none, _ => true
  | _, none => true
  | some c, some p =>
      decide (|c.lat - p.lat| > 0.000005) || decide (|c.lon - p.lon| > 0.000005)

/-- Source: WebSocketGPSService.isGPSDataStale, the later of the two method
definitions in the class body. A missing or falsy timestamp is stale; otherwise
the age now - timestamp must not exceed maxAgeMs (60000 at every call site in
this repository). -/
def isGPSDataStale (now : Int) (timestamp : Option Int) (maxAgeMs : Int) : Bool :=
  match timestamp with
  | none => true
  | some t => decide (now - t > maxAgeMs)

/-- GPS data cache of the service (the currentGPS and previousGPS fields). -/
structure WSCache where
  currentGPS : Option GPSPoint
  previousGPS : Option GPSPoint
deriving DecidableEq, Repr

/-- Inbound transport message shape: current point c, optional previous point
p, optional status string s. A missing field is none. -/
structure GpsMessage where
  c : Option RawCoord
  p : Option RawCoord
  s : Option String
deriving DecidableEq, Repr

/-- Payload handed to notifyGPSUpdate (the LocationUpdate of the spec).
timestamp is the Date.now() reading at delivery. -/
structure LocationUpdate where
  current : GPSPoint
  previous : Option GPSPoint
  status : String
  source : String
  timestamp : Int
deriving DecidableEq, Repr

/-- Observable result of one call to WebSocketGPSService.processGPSData:
the new cache, the payload passed to notifyGPSUpdate (none when the message
was dropped), and the arguments passed to notifyError during the call. -/
structure ProcessResult where
  cache : WSCache
  delivered : Option LocationUpdate
  errorEvents : List String
deriving DecidableEq, Repr

/-- Source: WebSocketGPSService.processGPSData. A message whose c or p field
is missing or invalid is dropped with a console warning only (notifyError is
never called on this path). Otherwise previousGPS is first copied from
currentGPS, the parsed c becomes currentGPS (timestamp defaulting to now),
and since p was checked valid the truthiness test on gpsData.p succeeds and
previousGPS is overwritten with the parsed p (timestamp defaulting to
now - 5000); finally the update is delivered to subscribers. -/
def processGPSData (now : Int) (st : WSCache) (gpsData : GpsMessage)
    (source : String) : ProcessResult :=
  match gpsData.c, gpsData.p with
  | some c, some p =>
      if !(isValidGPSData (some c)) || !(isValidGPSData (some p)) then
        { cache := st, delivered := none, errorEvents := [] }
      else
        let cur : GPSPoint :=
          { lat := c.lat.toQ, lon := c.lon.toQ, timestamp := some (c.t.getD now) }
        let prev : GPSPoint :=
          { lat := p.lat.toQ, lon := p.lon.toQ, timestamp := some (p.t.getD (now - 5000)) }
        let cache : WSCache := { currentGPS := some cur, previousGPS := some prev }
        { cache := cache,
          delivered := some
            { current := cur, previous := some prev,
              status := gpsData.s.getD "active", source := source, timestamp := now },
          errorEvents := [] }
  | _, _ =>
      -- isValidGPSData rejects a missing field, so the validity test drops
      -- the message before any field of the absent object is read.
      { cache := st, delivered := none, errorEvents := [] }

/-- Observable outcome of one subscriber callback: a normal return or a thrown
exception. The notification loops catch the latter. -/
inductive CallbackOutcome where
  | ok
  | thrown (msg : String)
deriving DecidableEq, Repr

/-- Source: the forEach loop with a per-callback try/catch shared verbatim by
notifyGPSUpdate, notifyConnectionChange and notifyError: each callback is
invoked in registration order; a thrown exception is caught (console.error)
and the loop continues with the next callback. -/
def runCallbacksCaught {A : Type} (cbs : List (A → CallbackOutcome)) (data : A) :
    List CallbackOutcome :=
  match cbs with
  | [] => []
  | cb :: rest => cb data :: runCallbacksCaught rest data

/-- Subscriber registries of the service, with the payload types the source
uses: LocationUpdate for updates, Bool for connection changes, String for
errors. -/
structure Subscribers where
  onGPSUpdateCallbacks : List (LocationUpdate → CallbackOutcome)
  onConnectionChangeCallbacks : List (Bool → CallbackOutcome)
  onErrorCallbacks : List (String → CallbackOutcome)

/-- Source: WebSocketGPSService.notifyGPSUpdate. Loops over the registered
update callbacks; returns the unchanged registries and the invocation trace. -/
def notifyGPSUpdate (svc : Subscribers) (data : LocationUpdate) :
    Subscribers × List CallbackOutcome :=
  (svc, runCallbacksCaught svc.onGPSUpdateCallbacks data)

/-- Source: WebSocketGPSService.notifyConnectionChange. -/
def notifyConnectionChange (svc : Subscribers) (connected : Bool) :
    Subscribers × List CallbackOutcome :=
  (svc, runCallbacksCaught svc.onConnectionChangeCallbacks connected)

/-- Source: WebSocketGPSService.notifyError. -/
def notifyError (svc : Subscribers) (error : String) :
    Subscribers × List CallbackOutcome :=
  (svc, runCallbacksCaught svc.onErrorCallbacks error)

/-- Transport handle created by io(...). gen numbers stand for the object
identity of the socket.io client instance; connected mirrors socket.connected
and becomes true only when the asynchronous connect event fires. -/
structure Socket where
  gen : Nat
  connected : Bool
deriving DecidableEq, Repr

/-- Connection-management state of the service: the transport handle, the
isConnected flag, the connectionAttempts counter, a fresh-identity supply for
newly created sockets, and the gen numbers of sockets on which disconnect()
has been called (most recent first). -/
structure ConnState where
  socket : Option Socket
  isConnected : Bool
  connectionAttempts : Nat
  nextGen : Nat
  disconnectedGens : List Nat
deriving DecidableEq, Repr

/-- Source: WebSocketGPSService.connect. If a socket exists it is
disconnected; then a fresh io(...) client is created and stored. The fresh
transport starts unconnected (its connect event arrives asynchronously), and
the isConnected flag and connectionAttempts counter are not touched here. -/
def connect (st : ConnState) : ConnState :=
  let torn : List Nat :=
    match st.socket with
    | some sk => sk.gen :: st.disconnectedGens
    | none => st.disconnectedGens
  { st with
    socket := some { gen := st.nextGen, connected := false },
    nextGen := st.nextGen + 1,
    disconnectedGens := torn }

/-- Source: the connect handler installed by setupEventHandlers. On a
successful connection the socket reports connected, isConnected is set and
connectionAttempts is reset to 0 (the handler also notifies connection-change
subscribers and requests initial GPS data, which are external effects). -/
def onConnectEvent (st : ConnState) : ConnState :=
  { st with
    socket := st.socket.map (fun sk => { sk with connected := true }),
    isConnected := true,
    connectionAttempts := 0 }

/-- Wellformedness of the fresh-identity supply: a held socket was minted
before nextGen. Holds for the initial state and is preserved by connect. -/
def socketGenFresh (st : ConnState) : Bool :=
  match st.socket with
  | none => true
  | some sk => decide (sk.gen < st.nextGen)

end WSGPS

namespace TramMovement

/-- Scene position as written to tram.position: exact values are rationals
because calculatePosition is linear in the coordinates. -/
structure Pos where
  x : ℚ
  y : ℚ
  z : ℚ
deriving DecidableEq, Repr

/-- Rotation stage of a gsap timeline started by updateTramPosition. -/
structure RotStage where
  duration : ℝ
  targetY : ℝ
  ease : String

/-- Translation stage of a gsap timeline started by updateTramPosition. -/
structure MoveStage where
  duration : ℝ
  target : Pos
  ease : String

/-- A gsap timeline as built by updateTramPosition: an optional rotation
stage followed by a translation stage. -/
structure Timeline where
  rot : Option RotStage
  move : MoveStage

/-- State of a TramMovement instance (the fields its GPS-processing methods
read and write). centerLat and centerLon and the speeds are constructor
configuration; tramPos is tram.position as last written by a direct set;
tramRotY is tram.rotation.y as read when a timeline starts; lastStaleWarning
is initialized to 0. -/
structure TramState where
  centerLat : ℚ
  centerLon : ℚ
  tramSpeed : ℚ
  rotationSpeed : ℚ
  currentGPS : Option GPSPoint
  previousGPS : Option GPSPoint
  tramPos : Pos
  tramRotY : ℝ
  currentTween : Option Timeline
  isMoving : Bool
  lastKnownPosition : Option Pos
  lastStaleWarning : Int
  lastUpdateTime : Int

/-- Source: this.scale = 100000 in the TramMovement constructor. -/
def tramScale : ℚ := 100000

/-- Source: this.baseHeight = -0.3 in the TramMovement constructor. -/
def tramBaseHeight : ℚ := -0.3

/-- Source: TramMovement.calculatePosition: fixed linear projection of
latitude and longitude into scene coordinates around the configured center. -/
def calculatePosition (st : TramState) (lat lon : ℚ) : Pos :=
  { x := (lat - st.centerLat) * tramScale,
    y := tramBaseHeight,
    z := (lon - st.centerLon) * tramScale }

/-- Source: TramMovement.stopTramMovement: kill any ongoing timeline (which
freezes the animated transform at its current value), clear the handle and
mark the tram as not moving. -/
def stopTramMovement (st : TramState) : TramState :=
  { st with currentTween := none, isMoving := false }

/-- Source: TramMovement.positionTramImmediately: set tram.position directly,
with no animation, and record the last known position. The rotation and any
existing timeline are not touched. -/
def positionTramImmediately (st : TramState) (lat lon : ℚ) : TramState :=
  let position := calculatePosition st lat lon
  { st with tramPos := position, lastKnownPosition := some position }

/-- JavaScript Math.atan2(y, x) on finite inputs (signed zeros ignored). -/
noncomputable def atan2 (y x : ℝ) : ℝ :=
  if 0 < x then Real.arctan (y / x)
  else if x < 0 then
    (if 0 ≤ y then Real.arctan (y / x) + Real.pi else Real.arctan (y / x) - Real.pi)
  else
    (if 0 < y then Real.pi / 2 else if y < 0 then -(Real.pi / 2) else 0)

/-- Source: the two sequential wrapping conditionals in updateTramPosition:
subtract 2 pi when the difference exceeds pi, then add 2 pi when the (possibly
already adjusted) difference is below negative pi. -/
noncomputable def wrapRotation (d : ℝ) : ℝ :=
  let d1 := if Real.pi < d then d - 2 * Real.pi else d
  if d1 < -Real.pi then d1 + 2 * Real.pi else d1

/-- Source: TramMovement.updateTramPosition. Projects the previous and current
accepted points, records the last known position, discards the update when the
straight-line displacement is under 0.5 scene units, and otherwise kills any
running timeline and starts a new one: a rotation stage only when the
wrap-adjusted rotation difference exceeds 0.05 rad in absolute value, with
duration min(1.0, diff / rotationSpeed), then a linear translation with
duration max(1.0, distance / tramSpeed). -/
noncomputable def updateTramPosition (st : TramState) : TramState :=
  match st.currentGPS, st.previousGPS with
  | some cur, some prev =>
      let currentPosition := calculatePosition st cur.lat cur.lon
      let previousPosition := calculatePosition st prev.lat prev.lon
      let st1 := { st with lastKnownPosition := some currentPosition }
      let dx : ℝ := (currentPosition.x : ℝ) - (previousPosition.x : ℝ)
      let dz : ℝ := (currentPosition.z : ℝ) - (previousPosition.z : ℝ)
      let distance : ℝ := Real.sqrt (dx * dx + dz * dz)
      if distance < 0.5 then st1
      else
        let duration : ℝ := max 1 (distance / (st.tramSpeed : ℝ))
        let modelForwardOffset : ℝ := -(Real.pi / 2)
        let targetRotation : ℝ := atan2 dx dz + modelForwardOffset
        let currentRotation : ℝ := st.tramRotY
        let rotationDiff : ℝ := wrapRotation (targetRotation - currentRotation)
        let rotStage : Option RotStage :=
          if 0.05 < |rotationDiff| then
            some { duration := min 1 (|rotationDiff| / (st.rotationSpeed : ℝ)),
                   targetY := currentRotation + rotationDiff,
                   ease := "power2.inOut" }
          else none
        { st1 with
          currentTween := some
            { rot := rotStage,
              move := { duration := duration, target := currentPosition, ease := "none" } },
          isMoving := true }
  | _, _ => st

/-- Payload received by TramMovement.processGPSData (the notifyGPSUpdate
payload, or the getBothGPSPoints result on the legacy path). -/
structure TramGPSMsg where
  current : Option GPSPoint
  previous : Option GPSPoint
  source : String
deriving DecidableEq, Repr

/-- Source: TramMovement.processGPSData, with now the Date.now() reading
during the call. The Bool result records whether the rate-limited staleness
warning was logged by this call. Order of the checks in the source: staleness
first, then the first-update branch, then the change test, then the shift of
previousGPS and the smooth-movement update. -/
noncomputable def processGPSData (now : Int) (st : TramState) (gpsData : TramGPSMsg) :
    TramState × Bool :=
  match gpsData.current with
  | none => (stopTramMovement st, false)
  | some cur =>
      if WSGPS.isGPSDataStale now cur.timestamp 60000 then
        if decide (st.lastStaleWarning = 0) || decide (now - st.lastStaleWarning > 30000) then
          (stopTramMovement { st with lastStaleWarning := now }, true)
        else
          (stopTramMovement st, false)
      else if st.currentGPS.isNone then
        let st1 := { st with currentGPS := some cur,
                             previousGPS := some (gpsData.previous.getD cur) }
        let st2 := positionTramImmediately st1 cur.lat cur.lon
        ({ st2 with lastUpdateTime := now }, false)
      else if !(WSGPS.hasGPSChanged (some cur) st.currentGPS) then
        (stopTramMovement st, false)
      else
        let st1 := { st with previousGPS := st.currentGPS, currentGPS := some cur }
        let st2 := updateTramPosition st1
        ({ st2 with lastUpdateTime := now }, false)

end TramMovement

namespace TramTracker

/-- Location record pushed to the history by updatePosition. -/
structure Location where
  lat : ℚ
  lon : ℚ
  timestamp : Int
deriving DecidableEq, Repr

/-- Source: this.maxHistoryLength = 10 in the TramTracker constructor. -/
def maxHistoryLength : Nat := 10

/-- History-relevant state of a TramTracker instance. The omitted fields
(currentStatus, isMoving, lastPassedBuilding, lastMovementTime) are written
only by detectMovement, detectBuilding and updateStatus, none of which reads
or writes locationHistory. -/
structure TrackerState where
  currentLocation : Option Location
  lastLocation : Option Location
  locationHistory : List Location
  lastUpdateTime : Int
deriving DecidableEq, Repr

/-- Source: the TramTracker constructor (history starts empty, clock fields
start at the construction-time Date.now() reading t0). -/
def initState (t0 : Int) : TrackerState :=
  { currentLocation := none, lastLocation := none,
    locationHistory := [], lastUpdateTime := t0 }

/-- Source: TramTracker.addToHistory: push the new location, then shift off
the single oldest entry when the bound is exceeded. -/
def addToHistory (history : List Location) (location : Location) : List Location :=
  let pushed := history ++ [location]
  if maxHistoryLength < pushed.length then pushed.tail else pushed

/-- Source: TramTracker.updatePosition, projected onto the history-relevant
fields: build the new location from the coordinates and the current time,
shift currentLocation into lastLocation, append to the history. The calls to
detectMovement, detectBuilding and updateStatus touch none of these fields. -/
def updatePosition (st : TrackerState) (lat lon : ℚ) (now : Int) : TrackerState :=
  let newLocation : Location := { lat := lat, lon := lon, timestamp := now }
  { st with
    lastLocation := st.currentLocation,
    currentLocation := some newLocation,
    locationHistory := addToHistory st.locationHistory newLocation,
    lastUpdateTime := now }

end TramTracker

/-
  Concrete instances used by counterexamples and witnesses.
-/

/-- Empty GPS cache (service state before any accepted message). -/
def emptyCache : WSGPS.WSCache := { currentGPS := none, previousGPS := none }

/-- Inbound message with a valid c field and an absent p field. -/
def msgMissingP : WSGPS.GpsMessage :=
  { c := some { lat := .fin 14, lon := .fin 101, t := some 0 },
    p := none, s := none }

/-- Inbound message with valid c and p fields. -/
def msgBothValid : WSGPS.GpsMessage :=
  { c := some { lat := .fin 13, lon := .fin 100, t := some 500 },
    p := some { lat := .fin 14, lon := .fin 101, t := none },
    s := none }

/-- Connection state holding an established, connected transport. -/
def connectedConn : WSGPS.ConnState :=
  { socket := some { gen := 0, connected := true }, isConnected := true,
    connectionAttempts := 0, nextGen := 1, disconnectedGens := [] }

/-- A baseline TramMovement state: default constructor configuration
(tramSpeed 10, rotationSpeed 1), no accepted GPS yet, tram at the origin. -/
def baseTram : TramMovement.TramState :=
  { centerLat := 0, centerLon := 0, tramSpeed := 10, rotationSpeed := 1,
    currentGPS := none, previousGPS := none,
    tramPos := { x := 0, y := 0, z := 0 }, tramRotY := 0,
    currentTween := none, isMoving := false,
    lastKnownPosition := none, lastStaleWarning := 0, lastUpdateTime := 0 }

/-- An in-flight timeline (a running translation started earlier). -/
def sampleTimeline : TramMovement.Timeline :=
  { rot := none,
    move := { duration := 1, target := { x := 5, y := 0, z := 5 }, ease := "none" } }

/-- Accepted point held by the reconciler in the running counterexamples. -/
def ptHeld : GPSPoint := { lat := 14, lon := 101, timestamp := some 0 }

/-- A fresh update with the same coordinates as ptHeld (within tolerance). -/
def ptSameCoords : GPSPoint := { lat := 14, lon := 101, timestamp := some 50000 }

/-- First-update message carrying a distinct previous point. -/
def msgFirstWithPrev : TramMovement.TramGPSMsg :=
  { current := some { lat := 14, lon := 101, timestamp := some 500 },
    previous := some { lat := 13, lon := 100, timestamp := some 0 },
    source := "websocket-broadcast" }

/-- Reconciler state in the Tracking phase: a point is held and a translation
timeline is in flight. -/
def stTracking : TramMovement.TramState :=
  { baseTram with
    currentGPS := some ptHeld,
    previousGPS := some ptHeld,
    currentTween := some sampleTimeline,
    isMoving := true }

/-- Fresh update message whose coordinates match the held point exactly. -/
def msgSameCoords : TramMovement.TramGPSMsg :=
  { current := some ptSameCoords, previous := none, source := "websocket-broadcast" }

/-- Update message whose current point carries no timestamp (hence stale). -/
def msgStale : TramMovement.TramGPSMsg :=
  { current := some { lat := 14, lon := 101, timestamp := none },
    previous := none, source := "websocket-broadcast" }

/-- Reconciler state used in the C8 counterexample: one unit of displacement
along x ahead of the held point, tram currently rotated by 0.01 rad. -/
noncomputable def stC8 : TramMovement.TramState :=
  { baseTram with
    currentGPS := some { lat := 1/100000, lon := 0, timestamp := some 0 },
    previousGPS := some { lat := 0, lon := 0, timestamp := some 0 },
    tramRotY := 1/100 }

/-- Reconciler state used in the C8 witness: one unit of displacement along z,
tram heading 0, so the update demands a quarter-turn rotation stage. -/
def stC8W : TramMovement.TramState :=
  { baseTram with
    currentGPS := some { lat := 0, lon := 1/100000, timestamp := some 0 },
    previousGPS := some { lat := 0, lon := 0, timestamp := some 0 } }

/-
  Theorems.
-/

/-- C6: for every point p, hasChanged(p, p) is false and hasChanged(p, null)
is true; in general hasChanged(newPoint, oldPoint) is true exactly when
oldPoint is absent or one of the coordinates differs from oldPoint by more
than the tolerance 0.000005 degrees. -/
theorem c6_hasGPSChanged_characterization (n : GPSPoint) (o : Option GPSPoint) :
    WSGPS.hasGPSChanged (some n) (some n) = false ∧
    WSGPS.hasGPSChanged (some n) none = true ∧
    (WSGPS.hasGPSChanged (some n) o = true ↔
      o = none ∨ ∃ p, o = some p ∧
        (0.000005 < |n.lat - p.lat| ∨ 0.000005 < |n.lon - p.lon|)) := by
  refine ⟨?_, rfl, ?_⟩
  · simp [WSGPS.hasGPSChanged]
    norm_num
  · cases o with
    | none => simp [WSGPS.hasGPSChanged]
    | some p => simp [WSGPS.hasGPSChanged]

/-- C7: isValid(point) returns true exactly when the point is present and both
coordinates coerce to finite numbers with latitude in [-90, 90] and longitude
in [-180, 180]; every absent, non-numeric, infinite or out-of-range input is
rejected. -/
theorem c7_isValidGPSData_characterization (d : Option RawCoord) :
    WSGPS.isValidGPSData d = true ↔
      ∃ r lat lon, d = some r ∧ r.lat = JSNum.fin lat ∧ r.lon = JSNum.fin lon ∧
        -90 ≤ lat ∧ lat ≤ 90 ∧ -180 ≤ lon ∧ lon ≤ 180 := by
  cases d with
  | none => simp [WSGPS.isValidGPSData]
  | some r =>
    rcases r with ⟨la, lo, t⟩
    cases la <;> cases lo <;>
      simp [WSGPS.isValidGPSData, JSNum.isNaN, JSNum.geConst, JSNum.leConst,
        and_assoc]

/-- Helper: folding addToHistory keeps exactly the most recent entries, as the
suffix of the full arrival list past its length minus the bound. -/
theorem foldl_addToHistory_eq_drop (ls : List TramTracker.Location) :
    ∀ acc : List TramTracker.Location, acc.length ≤ 10 →
      ls.foldl TramTracker.addToHistory acc
        = (acc ++ ls).drop (acc.length + ls.length - 10) := by
  induction ls with
  | nil =>
    intro acc h
    simp [Nat.sub_eq_zero_of_le h]
  | cons x ls ih =>
    intro acc h
    show List.foldl TramTracker.addToHistory (TramTracker.addToHistory acc x) ls = _
    rcases Nat.lt_or_ge acc.length 10 with hlt | hge
    · have hx : TramTracker.addToHistory acc x = acc ++ [x] := by
        unfold TramTracker.addToHistory
        rw [if_neg]
        simp [TramTracker.maxHistoryLength]
        omega
      rw [hx, ih (acc ++ [x]) (by simp; omega)]
      rw [List.append_assoc, List.singleton_append]
      congr 1
      simp
      omega
    · have h10 : acc.length = 10 := le_antisymm h hge
      have hx : TramTracker.addToHistory acc x = (acc ++ [x]).tail := by
        unfold TramTracker.addToHistory
        rw [if_pos]
        simp [TramTracker.maxHistoryLength]
        omega
      have hlen : ((acc ++ [x]).tail).length = 10 := by
        simp [h10]
      rw [hx, ih _ (le_of_eq hlen), hlen]
      have ht : (acc ++ [x]).tail ++ ls = (acc ++ x :: ls).tail := by
        rcases acc with _ | ⟨a, as⟩
        · simp at h10
        · simp
      rw [ht, ← List.drop_one, List.drop_drop]
      congr 1
      simp [h10]
      omega

/-- Helper: the tracker update fold only touches the history through
addToHistory on the freshly built location records. -/
theorem foldl_updatePosition_history (ups : List (ℚ × ℚ × Int)) :
    ∀ st : TramTracker.TrackerState,
      (ups.foldl (fun s u => TramTracker.updatePosition s u.1 u.2.1 u.2.2) st).locationHistory
        = ((ups.map fun u => TramTracker.Location.mk u.1 u.2.1 u.2.2).foldl
            TramTracker.addToHistory st.locationHistory) := by
  induction ups with
  | nil => intro st; rfl
  | cons u ups ih =>
    intro st
    simpa [TramTracker.updatePosition] using ih _

/-- C9: after every call to the tracker method updatePosition the location history
holds at most 10 entries; starting from a fresh tracker, the history after any
sequence of updates is exactly the suffix of the arrival-ordered location list
past all but the last 10 entries, so each update appends the new location and
evicts exactly the oldest entry once the bound is reached. -/
theorem c9_locationHistory_bound (t0 : Int) (ups : List (ℚ × ℚ × Int)) :
    (ups.foldl (fun s u => TramTracker.updatePosition s u.1 u.2.1 u.2.2)
        (TramTracker.initState t0)).locationHistory
      = (ups.map fun u => TramTracker.Location.mk u.1 u.2.1 u.2.2).drop (ups.length - 10) ∧
    (ups.foldl (fun s u => TramTracker.updatePosition s u.1 u.2.1 u.2.2)
        (TramTracker.initState t0)).locationHistory.length ≤ 10 := by
  have hmain :
      (ups.foldl (fun s u => TramTracker.updatePosition s u.1 u.2.1 u.2.2)
          (TramTracker.initState t0)).locationHistory
        = (ups.map fun u => TramTracker.Location.mk u.1 u.2.1 u.2.2).drop (ups.length - 10) := by
    rw [foldl_updatePosition_history]
    have h0 : (TramTracker.initState t0).locationHistory = [] := rfl
    rw [h0, foldl_addToHistory_eq_drop _ [] (by simp)]
    simp
  refine ⟨hmain, ?_⟩
  rw [hmain]
  simp
  omega

/-- Helper: the caught notification loop invokes every callback, producing the
full map of outcomes in registration order. -/
theorem runCallbacksCaught_eq_map {A : Type} (cbs : List (A → WSGPS.CallbackOutcome))
    (data : A) :
    WSGPS.runCallbacksCaught cbs data = cbs.map (fun cb => cb data) := by
  induction cbs with
  | nil => rfl
  | cons cb rest ih => simp [WSGPS.runCallbacksCaught, ih]

/-- C10: each of the three notification methods leaves the service state
untouched and invokes every registered callback in registration order — the
per-callback try/catch means a thrown exception never cuts the loop short, so
the invocation trace is always the full map over the registry. -/
theorem c10_notify_catches_callbacks (svc : WSGPS.Subscribers)
    (u : WSGPS.LocationUpdate) (b : Bool) (e : String) :
    WSGPS.notifyGPSUpdate svc u
        = (svc, svc.onGPSUpdateCallbacks.map (fun cb => cb u)) ∧
    WSGPS.notifyConnectionChange svc b
        = (svc, svc.onConnectionChangeCallbacks.map (fun cb => cb b)) ∧
    WSGPS.notifyError svc e
        = (svc, svc.onErrorCallbacks.map (fun cb => cb e)) := by
  refine ⟨?_, ?_, ?_⟩ <;>
    simp [WSGPS.notifyGPSUpdate, WSGPS.notifyConnectionChange, WSGPS.notifyError,
      runCallbacksCaught_eq_map]

/-- C3 counterexample: an inbound message with a valid c field and an absent
p field is not mapped and delivered — processGPSData drops it (and emits no
error event), contradicting the claim that only a malformed or missing c
causes a drop and that such a message reaches update subscribers. -/
theorem c3_counterexample :
    WSGPS.isValidGPSData msgMissingP.c = true ∧
    msgMissingP.p = none ∧
    WSGPS.processGPSData 1000 emptyCache msgMissingP "websocket-request"
      = { cache := emptyCache, delivered := none, errorEvents := [] } := by
  refine ⟨?_, rfl, rfl⟩
  simp only [msgMissingP, WSGPS.isValidGPSData, JSNum.isNaN, JSNum.geConst,
    JSNum.leConst, Bool.and_eq_true, Bool.not_eq_true, decide_eq_true_eq]
  norm_num

/-- C3 amended: a message is dropped — with only a console warning, never an
error event and never a crash — unless both its c and p fields are present and
valid; when both are valid it is mapped to a LocationUpdate whose previous is
the parsed p (so previous is never absent on delivery) and handed to update
subscribers. -/
theorem c3_amended_drop_unless_both_valid (now : Int) (st : WSGPS.WSCache)
    (gpsData : WSGPS.GpsMessage) (source : String) :
    (WSGPS.processGPSData now st gpsData source).errorEvents = [] ∧
    ((WSGPS.isValidGPSData gpsData.c && WSGPS.isValidGPSData gpsData.p) = false →
      WSGPS.processGPSData now st gpsData source
        = { cache := st, delivered := none, errorEvents := [] }) ∧
    (∀ c p, gpsData.c = some c → gpsData.p = some p →
      WSGPS.isValidGPSData (some c) = true → WSGPS.isValidGPSData (some p) = true →
      (WSGPS.processGPSData now st gpsData source).delivered = some
        { current := { lat := c.lat.toQ, lon := c.lon.toQ, timestamp := some (c.t.getD now) },
          previous := some
            { lat := p.lat.toQ, lon := p.lon.toQ, timestamp := some (p.t.getD (now - 5000)) },
          status := gpsData.s.getD "active", source := source, timestamp := now }) := by
  rcases gpsData with ⟨cf, pf, sf⟩
  refine ⟨?_, ?_, ?_⟩
  · rcases cf with _ | c <;> rcases pf with _ | p
    · rfl
    · rfl
    · rfl
    · simp only [WSGPS.processGPSData]
      split
      · rfl
      · rfl
  · intro hval
    rcases cf with _ | c <;> rcases pf with _ | p
    · rfl
    · rfl
    · rfl
    · simp only at hval
      simp only [WSGPS.processGPSData]
      rw [if_pos]
      simp only [Bool.and_eq_false_iff] at hval
      rcases hval with h | h <;> simp [h]
  · intro c p hc hp hvc hvp
    simp only at hc hp
    subst hc
    subst hp
    simp only [WSGPS.processGPSData]
    rw [if_neg (by simp [hvc, hvp])]

/-- C3 amended witness: a concrete message with both fields valid is delivered
with previous parsed from p. -/
theorem c3_amended_witness :
    (WSGPS.processGPSData 9000 emptyCache msgBothValid "websocket-request").delivered
      = some
        { current := { lat := 13, lon := 100, timestamp := some 500 },
          previous := some { lat := 14, lon := 101, timestamp := some 4000 },
          status := "active", source := "websocket-request", timestamp := 9000 } :=
  (c3_amended_drop_unless_both_valid 9000 emptyCache msgBothValid
      "websocket-request").2.2
    { lat := .fin 13, lon := .fin 100, t := some 500 }
    { lat := .fin 14, lon := .fin 101, t := none }
    rfl rfl
    (by simp only [WSGPS.isValidGPSData, JSNum.isNaN, JSNum.geConst, JSNum.leConst,
          Bool.and_eq_true, Bool.not_eq_true, decide_eq_true_eq]
        norm_num)
    (by simp only [WSGPS.isValidGPSData, JSNum.isNaN, JSNum.geConst, JSNum.leConst,
          Bool.and_eq_true, Bool.not_eq_true, decide_eq_true_eq]
        norm_num)

/-- C4 counterexample: calling connect() on a state whose transport is
established and connected is not a no-op — the held socket is disconnected
and replaced by a fresh one, so the established transport is not left in
place. -/
theorem c4_counterexample :
    WSGPS.connect connectedConn ≠ connectedConn ∧
    (WSGPS.connect connectedConn).socket ≠ connectedConn.socket ∧
    (WSGPS.connect connectedConn).disconnectedGens = [0] := by
  decide

/-- C4 amended: connect() always tears down any existing transport (its
disconnect is recorded) and installs a freshly created, initially unconnected
transport — in particular it is not a no-op while connected; attemptCount is
reset to zero on each successful connection, by the connect event handler. -/
theorem c4_amended_connect_replaces_transport (st : WSGPS.ConnState)
    (h : WSGPS.socketGenFresh st = true) :
    (WSGPS.connect st).socket ≠ st.socket ∧
    (WSGPS.connect st).socket = some { gen := st.nextGen, connected := false } ∧
    (∀ sk, st.socket = some sk →
      (WSGPS.connect st).disconnectedGens = sk.gen :: st.disconnectedGens) ∧
    WSGPS.socketGenFresh (WSGPS.connect st) = true ∧
    (WSGPS.onConnectEvent st).connectionAttempts = 0 ∧
    (WSGPS.onConnectEvent st).isConnected = true := by
  refine ⟨?_, rfl, ?_, ?_, rfl, rfl⟩
  · rcases hsk : st.socket with _ | sk
    · simp [WSGPS.connect, hsk]
    · simp only [WSGPS.socketGenFresh, hsk, decide_eq_true_eq] at h
      simp only [WSGPS.connect, hsk, ne_eq, Option.some.injEq]
      intro he
      have : st.nextGen = sk.gen := congrArg WSGPS.Socket.gen he
      omega
  · intro sk hsk
    simp [WSGPS.connect, hsk]
  · simp [WSGPS.socketGenFresh, WSGPS.connect]

/-- C4 amended witness: at the concrete connected state the transport is
replaced and the connect event resets the attempt counter. -/
theorem c4_amended_witness :
    (WSGPS.connect connectedConn).socket ≠ connectedConn.socket ∧
    (WSGPS.onConnectEvent connectedConn).connectionAttempts = 0 :=
  ⟨(c4_amended_connect_replaces_transport connectedConn (by decide)).1,
   (c4_amended_connect_replaces_transport connectedConn (by decide)).2.2.2.2.1⟩

/-- Helper: the branch of TramMovement.processGPSData taken by a fresh update
whose coordinates have not changed: stopTramMovement and nothing else. -/
theorem processGPSData_unchanged_branch (now : Int) (st : TramMovement.TramState)
    (gpsData : TramMovement.TramGPSMsg) (cur : GPSPoint)
    (hcur : gpsData.current = some cur)
    (hfresh : WSGPS.isGPSDataStale now cur.timestamp 60000 = false)
    (hheld : st.currentGPS.isNone = false)
    (hsame : WSGPS.hasGPSChanged (some cur) st.currentGPS = false) :
    TramMovement.processGPSData now st gpsData
      = (TramMovement.stopTramMovement st, false) := by
  rcases gpsData with ⟨curf, prevf, src⟩
  simp only at hcur
  subst hcur
  simp [TramMovement.processGPSData, hfresh, hheld, hsame]

/-- Helper: the first-update branch of TramMovement.processGPSData: accept the
point, take previousGPS from the message when it carries one, snap the tram
position directly, record the update time; the timeline handle is untouched. -/
theorem processGPSData_first_update (now : Int) (st : TramMovement.TramState)
    (gpsData : TramMovement.TramGPSMsg) (cur : GPSPoint)
    (hcur : gpsData.current = some cur)
    (hfresh : WSGPS.isGPSDataStale now cur.timestamp 60000 = false)
    (hempty : st.currentGPS = none) :
    TramMovement.processGPSData now st gpsData
      = ({ st with
            currentGPS := some cur,
            previousGPS := some (gpsData.previous.getD cur),
            tramPos := TramMovement.calculatePosition st cur.lat cur.lon,
            lastKnownPosition := some (TramMovement.calculatePosition st cur.lat cur.lon),
            lastUpdateTime := now }, false) := by
  rcases gpsData with ⟨curf, prevf, src⟩
  simp only at hcur
  subst hcur
  simp [TramMovement.processGPSData, hfresh, hempty,
    TramMovement.positionTramImmediately, TramMovement.calculatePosition]

/-- Helper: the stale branch of TramMovement.processGPSData: stopTramMovement,
the rate-limited warning, and nothing else. -/
theorem processGPSData_stale_branch (now : Int) (st : TramMovement.TramState)
    (gpsData : TramMovement.TramGPSMsg) (cur : GPSPoint)
    (hcur : gpsData.current = some cur)
    (hstale : WSGPS.isGPSDataStale now cur.timestamp 60000 = true) :
    TramMovement.processGPSData now st gpsData
      = (TramMovement.stopTramMovement
            { st with lastStaleWarning :=
                if st.lastStaleWarning = 0 ∨ now - st.lastStaleWarning > 30000 then now
                else st.lastStaleWarning },
         decide (st.lastStaleWarning = 0 ∨ now - st.lastStaleWarning > 30000)) := by
  rcases gpsData with ⟨curf, prevf, src⟩
  simp only at hcur
  subst hcur
  by_cases hb : st.lastStaleWarning = 0 ∨ now - st.lastStaleWarning > 30000
  · have hbb : (decide (st.lastStaleWarning = 0)
        || decide (now - st.lastStaleWarning > 30000)) = true := by
      rcases hb with h | h <;> simp [h]
    simp [TramMovement.processGPSData, hstale, hbb, if_pos hb, hb]
  · have hbb : (decide (st.lastStaleWarning = 0)
        || decide (now - st.lastStaleWarning > 30000)) = false := by
      push_neg at hb
      simp [hb.1, hb.2]
    simp [TramMovement.processGPSData, hstale, hbb, if_neg hb, hb]

/-- Helper: an update that is missing its current point or is stale leaves both
accepted points untouched. -/
theorem processGPSData_staleish_preserves_gps (now : Int) (st : TramMovement.TramState)
    (gpsData : TramMovement.TramGPSMsg)
    (h : ∀ c, gpsData.current = some c →
        WSGPS.isGPSDataStale now c.timestamp 60000 = true) :
    (TramMovement.processGPSData now st gpsData).1.currentGPS = st.currentGPS ∧
    (TramMovement.processGPSData now st gpsData).1.previousGPS = st.previousGPS := by
  rcases hc : gpsData.current with _ | c
  · rcases gpsData with ⟨curf, prevf, src⟩
    simp only at hc
    subst hc
    exact ⟨rfl, rfl⟩
  · rw [processGPSData_stale_branch now st gpsData c hc (h c hc)]
    exact ⟨rfl, rfl⟩

/-- Helper: a run of updates each missing its current point or stale leaves
both accepted points untouched. -/
theorem foldl_stale_preserves_gps (msgs : List (Int × TramMovement.TramGPSMsg)) :
    ∀ st : TramMovement.TramState,
      (∀ m ∈ msgs, ∀ c, m.2.current = some c →
          WSGPS.isGPSDataStale m.1 c.timestamp 60000 = true) →
      ((msgs.foldl (fun s m => (TramMovement.processGPSData m.1 s m.2).1) st).currentGPS
          = st.currentGPS ∧
       (msgs.foldl (fun s m => (TramMovement.processGPSData m.1 s m.2).1) st).previousGPS
          = st.previousGPS) := by
  induction msgs with
  | nil => intro st h; exact ⟨rfl, rfl⟩
  | cons m msgs ih =>
    intro st h
    have hstep := processGPSData_staleish_preserves_gps m.1 st m.2
      (h m (List.mem_cons_self m msgs))
    have hrest := ih ((TramMovement.processGPSData m.1 st m.2).1)
      (fun x hx => h x (List.mem_cons_of_mem m hx))
    simp only [List.foldl_cons]
    exact ⟨hrest.1.trans hstep.1, hrest.2.trans hstep.2⟩

/-- C1 counterexample: a valid, fresh update whose coordinates equal the last
accepted point does not leave the in-flight transition running — the
reconciler kills the running timeline (stopTramMovement), contradicting the
claim that the reconciler remains in its current state with the transition
still running. -/
theorem c1_counterexample :
    stTracking.currentTween = some sampleTimeline ∧
    (TramMovement.processGPSData 60000 stTracking msgSameCoords).1.currentTween
      = none := by
  refine ⟨rfl, ?_⟩
  rw [processGPSData_unchanged_branch 60000 stTracking msgSameCoords ptSameCoords
    rfl (by decide) rfl
    (by norm_num [WSGPS.hasGPSChanged, stTracking, baseTram, ptSameCoords, ptHeld])]
  rfl

/-- C1 amended: for every update that is valid, fresh, and whose coordinates
differ from the last accepted point by at most the change tolerance, the
reconciler discards it with no new transition and leaves currentAccepted and
previousAccepted unchanged, but it calls stopTramMovement: any in-flight
transition is cancelled and isMoving is set to false (so isMoving remains
false when it was false). -/
theorem c1_amended_unchanged_update_stops_movement (now : Int)
    (st : TramMovement.TramState) (gpsData : TramMovement.TramGPSMsg)
    (cur : GPSPoint)
    (hcur : gpsData.current = some cur)
    (_hlat1 : -90 ≤ cur.lat) (_hlat2 : cur.lat ≤ 90)
    (_hlon1 : -180 ≤ cur.lon) (_hlon2 : cur.lon ≤ 180)
    (hfresh : WSGPS.isGPSDataStale now cur.timestamp 60000 = false)
    (hheld : st.currentGPS.isNone = false)
    (hsame : WSGPS.hasGPSChanged (some cur) st.currentGPS = false) :
    TramMovement.processGPSData now st gpsData
      = ({ st with currentTween := none, isMoving := false }, false) :=
  processGPSData_unchanged_branch now st gpsData cur hcur hfresh hheld hsame

/-- C1 amended witness: the concrete unchanged update at the Tracking state. -/
theorem c1_amended_witness :
    TramMovement.processGPSData 60000 stTracking msgSameCoords
      = ({ stTracking with currentTween := none, isMoving := false }, false) :=
  c1_amended_unchanged_update_stops_movement 60000 stTracking msgSameCoords
    ptSameCoords rfl
    (by norm_num [ptSameCoords]) (by norm_num [ptSameCoords])
    (by norm_num [ptSameCoords]) (by norm_num [ptSameCoords])
    (by decide) rfl
    (by norm_num [WSGPS.hasGPSChanged, stTracking, baseTram, ptSameCoords, ptHeld])

/-- C2 counterexample: on a first-ever update that carries a distinct previous
point, previousAccepted does not equal currentAccepted afterwards — the
reconciler keeps the carried previous point, contradicting the claim that
previousAccepted equals currentAccepted after every first update. -/
theorem c2_counterexample :
    baseTram.currentGPS = none ∧
    (TramMovement.processGPSData 1000 baseTram msgFirstWithPrev).1.previousGPS
      ≠ (TramMovement.processGPSData 1000 baseTram msgFirstWithPrev).1.currentGPS := by
  refine ⟨rfl, ?_⟩
  rw [processGPSData_first_update 1000 baseTram msgFirstWithPrev
    { lat := 14, lon := 101, timestamp := some 500 } rfl (by decide) rfl]
  simp [msgFirstWithPrev]

/-- C2 amended: on the first-ever accepted update (currentAccepted null
beforehand, point valid and fresh) the reconciler sets currentAccepted to the
point and previousAccepted to the previous point of the update when one is carried
(and to the point itself otherwise), and snaps the rendered transform
immediately to the computed position with no animation; previousAccepted
equals currentAccepted when the update carries no previous point. -/
theorem c2_amended_first_update_snaps (now : Int) (st : TramMovement.TramState)
    (gpsData : TramMovement.TramGPSMsg) (cur : GPSPoint)
    (hcur : gpsData.current = some cur)
    (_hlat1 : -90 ≤ cur.lat) (_hlat2 : cur.lat ≤ 90)
    (_hlon1 : -180 ≤ cur.lon) (_hlon2 : cur.lon ≤ 180)
    (hfresh : WSGPS.isGPSDataStale now cur.timestamp 60000 = false)
    (hempty : st.currentGPS = none) :
    TramMovement.processGPSData now st gpsData
      = ({ st with
            currentGPS := some cur,
            previousGPS := some (gpsData.previous.getD cur),
            tramPos := TramMovement.calculatePosition st cur.lat cur.lon,
            lastKnownPosition := some (TramMovement.calculatePosition st cur.lat cur.lon),
            lastUpdateTime := now }, false) ∧
    (TramMovement.processGPSData now st gpsData).1.currentTween = st.currentTween ∧
    (gpsData.previous = none →
      (TramMovement.processGPSData now st gpsData).1.previousGPS
        = (TramMovement.processGPSData now st gpsData).1.currentGPS) := by
  have h := processGPSData_first_update now st gpsData cur hcur hfresh hempty
  refine ⟨h, ?_, ?_⟩
  · rw [h]
  · intro hp
    rw [h]
    simp [hp]

/-- C2 amended witness: a first update with no previous point is snapped and
leaves previousAccepted equal to currentAccepted. -/
theorem c2_amended_witness :
    TramMovement.processGPSData 60000 baseTram msgSameCoords
      = ({ baseTram with
            currentGPS := some ptSameCoords,
            previousGPS := some (msgSameCoords.previous.getD ptSameCoords),
            tramPos := TramMovement.calculatePosition baseTram ptSameCoords.lat
              ptSameCoords.lon,
            lastKnownPosition := some (TramMovement.calculatePosition baseTram
              ptSameCoords.lat ptSameCoords.lon),
            lastUpdateTime := 60000 }, false) ∧
    (TramMovement.processGPSData 60000 baseTram msgSameCoords).1.previousGPS
      = (TramMovement.processGPSData 60000 baseTram msgSameCoords).1.currentGPS := by
  have h := c2_amended_first_update_snaps 60000 baseTram msgSameCoords ptSameCoords
    rfl
    (by norm_num [ptSameCoords]) (by norm_num [ptSameCoords])
    (by norm_num [ptSameCoords]) (by norm_num [ptSameCoords])
    (by decide) rfl
  exact ⟨h.1, h.2.2 rfl⟩

/-- C5: a stale update (timestamp absent or older than the 60000 ms threshold)
never starts a transition regardless of coordinate distance: any in-flight
transition is cancelled, the rendered transform stays at its current value,
both accepted points are unchanged — also across arbitrarily many consecutive
stale updates — and the staleness warning is logged only when none was logged
in the last 30 seconds, with the log time recorded, so it is emitted at most
once per 30 seconds. -/
theorem c5_stale_update_freezes (now : Int) (st : TramMovement.TramState)
    (gpsData : TramMovement.TramGPSMsg) (cur : GPSPoint)
    (hcur : gpsData.current = some cur)
    (hstale : WSGPS.isGPSDataStale now cur.timestamp 60000 = true) :
    TramMovement.processGPSData now st gpsData
      = (TramMovement.stopTramMovement
            { st with lastStaleWarning :=
                if st.lastStaleWarning = 0 ∨ now - st.lastStaleWarning > 30000 then now
                else st.lastStaleWarning },
         decide (st.lastStaleWarning = 0 ∨ now - st.lastStaleWarning > 30000)) ∧
    (TramMovement.processGPSData now st gpsData).1.currentTween = none ∧
    (TramMovement.processGPSData now st gpsData).1.tramPos = st.tramPos ∧
    (TramMovement.processGPSData now st gpsData).1.tramRotY = st.tramRotY ∧
    (TramMovement.processGPSData now st gpsData).1.currentGPS = st.currentGPS ∧
    (TramMovement.processGPSData now st gpsData).1.previousGPS = st.previousGPS ∧
    ((TramMovement.processGPSData now st gpsData).2 = true ↔
       (st.lastStaleWarning = 0 ∨ now - st.lastStaleWarning > 30000)) ∧
    ((TramMovement.processGPSData now st gpsData).2 = true →
       (TramMovement.processGPSData now st gpsData).1.lastStaleWarning = now) ∧
    (∀ msgs : List (Int × TramMovement.TramGPSMsg),
      (∀ m ∈ msgs, ∀ c, m.2.current = some c →
          WSGPS.isGPSDataStale m.1 c.timestamp 60000 = true) →
      ((msgs.foldl (fun s m => (TramMovement.processGPSData m.1 s m.2).1) st).currentGPS
          = st.currentGPS ∧
       (msgs.foldl (fun s m => (TramMovement.processGPSData m.1 s m.2).1) st).previousGPS
          = st.previousGPS)) := by
  have h := processGPSData_stale_branch now st gpsData cur hcur hstale
  refine ⟨h, ?_, ?_, ?_, ?_, ?_, ?_, ?_, ?_⟩
  · rw [h]; rfl
  · rw [h]; rfl
  · rw [h]; rfl
  · rw [h]; rfl
  · rw [h]; rfl
  · rw [h]
    simp
  · intro ht
    rw [h] at ht ⊢
    simp only [decide_eq_true_eq] at ht
    simp [TramMovement.stopTramMovement, if_pos ht]
  · exact fun msgs hm => foldl_stale_preserves_gps msgs st hm

/-- C5 witness: a concrete stale update (missing timestamp) at the Tracking
state is logged, kills the timeline and leaves the accepted points alone. -/
theorem c5_stale_update_freezes_witness :
    (TramMovement.processGPSData 100000 stTracking msgStale).2 = true ∧
    (TramMovement.processGPSData 100000 stTracking msgStale).1.currentTween = none ∧
    (TramMovement.processGPSData 100000 stTracking msgStale).1.currentGPS
      = stTracking.currentGPS := by
  have h := c5_stale_update_freezes 100000 stTracking msgStale
    { lat := 14, lon := 101, timestamp := none } rfl rfl
  exact ⟨(h.2.2.2.2.2.2.1).mpr (Or.inl rfl), h.2.1, h.2.2.2.2.1⟩

/-- Helper: Math.atan2(1, 0) is pi / 2. -/
theorem atan2_one_zero : TramMovement.atan2 1 0 = Real.pi / 2 := by
  unfold TramMovement.atan2
  rw [if_neg (lt_irrefl 0), if_neg (lt_irrefl 0), if_pos one_pos]

/-- Helper: the wrapping conditionals leave a difference already inside
the closed interval from negative pi to pi alone. -/
theorem wrapRotation_of_small (d : ℝ) (h1 : d ≤ Real.pi) (h2 : -Real.pi ≤ d) :
    TramMovement.wrapRotation d = d := by
  simp only [TramMovement.wrapRotation]
  rw [if_neg (not_lt.mpr h1), if_neg (not_lt.mpr h2)]

/-- Helper: the two branches of TramMovement.updateTramPosition when both
accepted points are present, phrased through the intermediate displacement,
distance and wrap-adjusted rotation difference values. -/
theorem updateTramPosition_eq (st : TramMovement.TramState) (cur prev : GPSPoint)
    (h1 : st.currentGPS = some cur) (h2 : st.previousGPS = some prev)
    (dx dz dist diff : ℝ)
    (hdx : dx = ((TramMovement.calculatePosition st cur.lat cur.lon).x : ℝ)
        - ((TramMovement.calculatePosition st prev.lat prev.lon).x : ℝ))
    (hdz : dz = ((TramMovement.calculatePosition st cur.lat cur.lon).z : ℝ)
        - ((TramMovement.calculatePosition st prev.lat prev.lon).z : ℝ))
    (hdist : dist = Real.sqrt (dx * dx + dz * dz))
    (hdiff : diff = TramMovement.wrapRotation
        (TramMovement.atan2 dx dz + -(Real.pi / 2) - st.tramRotY)) :
    (dist < 0.5 →
      TramMovement.updateTramPosition st
        = { st with
            lastKnownPosition := some (TramMovement.calculatePosition st cur.lat cur.lon) }) ∧
    (¬ dist < 0.5 →
      TramMovement.updateTramPosition st
        = { st with
            lastKnownPosition := some (TramMovement.calculatePosition st cur.lat cur.lon),
            isMoving := true,
            currentTween := some
              { rot := if 0.05 < |diff| then
                  some { duration := min 1 (|diff| / (st.rotationSpeed : ℝ)),
                         targetY := st.tramRotY + diff,
                         ease := "power2.inOut" }
                else none,
                move := { duration := max 1 (dist / (st.tramSpeed : ℝ)),
                          target := TramMovement.calculatePosition st cur.lat cur.lon,
                          ease := "none" } } }) := by
  subst hdiff
  subst hdist
  subst hdx
  subst hdz
  constructor
  · intro hlt
    simp only [TramMovement.updateTramPosition, h1, h2]
    rw [if_pos hlt]
  · intro hge
    simp only [TramMovement.updateTramPosition, h1, h2]
    rw [if_neg hge]

/-- C8 counterexample: a valid, fresh, changed update one scene unit ahead
(distance 1, above the 0.5 threshold) whose wrap-adjusted rotation difference
is -0.01 rad — nonzero, so the claim demands a rotation stage of duration
min(1.0, 0.01) — starts a transition with no rotation stage at all: the code
skips rotation whenever the absolute difference is at most 0.05 rad. -/
theorem c8_counterexample :
    ((TramMovement.updateTramPosition stC8).currentTween.map
        (fun tl => tl.rot.isSome)) = some false ∧
    TramMovement.wrapRotation
        (TramMovement.atan2 1 0 + -(Real.pi / 2) - stC8.tramRotY) = -(1/100) ∧
    ((-(1/100) : ℝ)) ≠ 0 := by
  have hrot : stC8.tramRotY = 1/100 := rfl
  have hdiff : (-(1/100) : ℝ) = TramMovement.wrapRotation
      (TramMovement.atan2 1 0 + -(Real.pi / 2) - stC8.tramRotY) := by
    rw [atan2_one_zero, hrot]
    rw [show Real.pi / 2 + -(Real.pi / 2) - 1/100 = -(1/100) by ring]
    rw [wrapRotation_of_small (-(1/100))
      (by linarith [Real.pi_pos]) (by linarith [Real.pi_gt_three])]
  refine ⟨?_, hdiff.symm, by norm_num⟩
  have hdx : (1 : ℝ)
      = ((TramMovement.calculatePosition stC8 (1/100000 : ℚ) (0 : ℚ)).x : ℝ)
        - ((TramMovement.calculatePosition stC8 (0 : ℚ) (0 : ℚ)).x : ℝ) := by
    norm_num [TramMovement.calculatePosition, TramMovement.tramScale, stC8, baseTram]
  have hdz : (0 : ℝ)
      = ((TramMovement.calculatePosition stC8 (1/100000 : ℚ) (0 : ℚ)).z : ℝ)
        - ((TramMovement.calculatePosition stC8 (0 : ℚ) (0 : ℚ)).z : ℝ) := by
    norm_num [TramMovement.calculatePosition, TramMovement.tramScale, stC8, baseTram]
  have hdist : (1 : ℝ) = Real.sqrt (1 * 1 + 0 * 0) := by
    rw [show (1 : ℝ) * 1 + 0 * 0 = 1 by norm_num, Real.sqrt_one]
  have h := (updateTramPosition_eq stC8
      { lat := 1/100000, lon := 0, timestamp := some 0 }
      { lat := 0, lon := 0, timestamp := some 0 }
      rfl rfl 1 0 1 (-(1/100)) hdx hdz hdist hdiff).2 (by norm_num)
  rw [h]
  have habs : ¬ (0.05 < |(-(1/100) : ℝ)|) := by
    rw [abs_neg, abs_of_pos (by norm_num : (0:ℝ) < 1/100)]
    norm_num
  rw [if_neg habs]
  rfl

/-- C8 amended: for every valid, fresh, changed update, if the projected
displacement is below 0.5 scene units the update is discarded with no
transition; otherwise any in-flight transition is cancelled and a new
transition is started that first rotates by the wrap-adjusted difference
(the raw difference shifted once by two pi when it falls outside the interval
from negative pi to pi) with duration min(1.0, difference / rotationSpeed) —
but only when that difference exceeds 0.05 rad in absolute value, the rotation
stage being skipped otherwise — and then translates at constant speed with
duration max(1.0, distance / linearSpeed). -/
theorem c8_amended_transition_shape (st : TramMovement.TramState)
    (cur prev : GPSPoint)
    (h1 : st.currentGPS = some cur) (h2 : st.previousGPS = some prev)
    (dx dz dist diff : ℝ)
    (hdx : dx = ((TramMovement.calculatePosition st cur.lat cur.lon).x : ℝ)
        - ((TramMovement.calculatePosition st prev.lat prev.lon).x : ℝ))
    (hdz : dz = ((TramMovement.calculatePosition st cur.lat cur.lon).z : ℝ)
        - ((TramMovement.calculatePosition st prev.lat prev.lon).z : ℝ))
    (hdist : dist = Real.sqrt (dx * dx + dz * dz))
    (hdiff : diff = TramMovement.wrapRotation
        (TramMovement.atan2 dx dz + -(Real.pi / 2) - st.tramRotY)) :
    (dist < 0.5 →
      TramMovement.updateTramPosition st
        = { st with
            lastKnownPosition := some (TramMovement.calculatePosition st cur.lat cur.lon) }) ∧
    (¬ dist < 0.5 →
      TramMovement.updateTramPosition st
        = { st with
            lastKnownPosition := some (TramMovement.calculatePosition st cur.lat cur.lon),
            isMoving := true,
            currentTween := some
              { rot := if 0.05 < |diff| then
                  some { duration := min 1 (|diff| / (st.rotationSpeed : ℝ)),
                         targetY := st.tramRotY + diff,
                         ease := "power2.inOut" }
                else none,
                move := { duration := max 1 (dist / (st.tramSpeed : ℝ)),
                          target := TramMovement.calculatePosition st cur.lat cur.lon,
                          ease := "none" } } }) ∧
    (¬ dist < 0.5 →
      ∀ tl, (TramMovement.updateTramPosition st).currentTween = some tl →
        1 ≤ tl.move.duration ∧ (∀ r, tl.rot = some r → r.duration ≤ 1)) := by
  have h := updateTramPosition_eq st cur prev h1 h2 dx dz dist diff hdx hdz hdist hdiff
  refine ⟨h.1, h.2, ?_⟩
  intro hge tl htl
  rw [h.2 hge] at htl
  simp only [Option.some.injEq] at htl
  subst htl
  refine ⟨le_max_left 1 _, ?_⟩
  intro r hr
  by_cases hc : 0.05 < |diff|
  · rw [if_pos hc] at hr
    simp only [Option.some.injEq] at hr
    subst hr
    exact min_le_left 1 _
  · rw [if_neg hc] at hr
    cases hr

/-- C8 amended witness: when the two accepted points coincide the displacement
is 0, below the threshold, and the update is discarded with no transition. -/
theorem c8_amended_witness :
    TramMovement.updateTramPosition stTracking
      = { stTracking with
          lastKnownPosition :=
            some (TramMovement.calculatePosition stTracking ptHeld.lat ptHeld.lon) } := by
  have hdx : (0 : ℝ)
      = ((TramMovement.calculatePosition stTracking ptHeld.lat ptHeld.lon).x : ℝ)
        - ((TramMovement.calculatePosition stTracking ptHeld.lat ptHeld.lon).x : ℝ) :=
    (sub_self _).symm
  have hdz : (0 : ℝ)
      = ((TramMovement.calculatePosition stTracking ptHeld.lat ptHeld.lon).z : ℝ)
        - ((TramMovement.calculatePosition stTracking ptHeld.lat ptHeld.lon).z : ℝ) :=
    (sub_self _).symm
  have hdist : (0 : ℝ) = Real.sqrt (0 * 0 + 0 * 0) := by
    rw [show (0 : ℝ) * 0 + 0 * 0 = 0 by norm_num, Real.sqrt_zero]
  exact (c8_amended_transition_shape stTracking ptHeld ptHeld rfl rfl 0 0 0
      (TramMovement.wrapRotation
        (TramMovement.atan2 0 0 + -(Real.pi / 2) - stTracking.tramRotY))
      hdx hdz hdist rfl).1 (by norm_num)

end AUJourney
